import Mathlib

/-
Verification of update_abuseipdb_asns.py.

The script is embedded shallowly:
- every HTTP interaction is made explicit as a parameter describing the
  outcome of the single request the code issues (status code plus parsed
  JSON body, or a raised transport or unexpected exception);
- functions that issue requests also return the list of requests issued,
  so that claims about the number of network calls can be stated;
- the YAML rules document is a structure with the `rules` sequence and the
  remaining top-level keys; print/log statements are not modeled.
-/

/-- Boolean test that the first character list is a prefix of the second. -/
def listPrefixCheck : List Char → List Char → Bool
  | [], _ => true
  | _ :: _, [] => false
  | a :: as, b :: bs => a == b && listPrefixCheck as bs

/-- Boolean substring test on character lists; models the Python `in`
operator on strings (contiguous substring containment). -/
def listContains (pat : List Char) : List Char → Bool
  | [] => pat.isEmpty
  | b :: t => listPrefixCheck pat (b :: t) || listContains pat t

/-- `strContains hay pat` models the Python expression `pat in hay` on strings. -/
def strContains (hay pat : String) : Bool :=
  listContains pat.toList hay.toList

/-- Character list of a string after lowercasing; models Python `s.lower()`
for the ASCII names involved. -/
def strLowerChars (s : String) : List Char :=
  s.toList.map Char.toLower

/-- MAX_ASNS = 50 from the script header. -/
def MAX_ASNS : Nat := 50

/-- ZONE_IDS: the zone registry literal from the script, in insertion order. -/
def ZONE_IDS : List (String × String) :=
  [("homieyeng.top", "1791cd65881eb3caf7d1a3cb315342a5"),
   ("homieyang.dpdns.org", "42e0fad5233017cf842727c41ce3ef89")]

/-- get_known_bad_asns: the static curated ASN catalog, in source order. -/
def get_known_bad_asns : List Nat :=
  [197695, 49505, 201776, 202425, 49392, 44812, 202422,
   49981, 60068, 44901, 51167, 200000,
   208091, 202448, 63949, 16276, 24940,
   45090, 37963,
   20473, 14061,
   9009, 35913,
   31034, 8100, 46844,
   40676, 53667,
   209605, 212238,
   29802,
   48693]

/-- One entry of the AbuseIPDB blacklist JSON `data` array; the code only
reads the country-code field (for logging), other fields are unused. -/
structure BlacklistEntry where
  countryCode : Option String
deriving DecidableEq

/-- Outcome of the single GET to the AbuseIPDB blacklist endpoint:
a response with a status code and the optional `data` array of the parsed
JSON body (`none` when the key is missing), or a raised
requests.exceptions.RequestException, or any other raised exception. -/
inductive FetchOutcome where
  | response (status : Nat) (data : Option (List BlacklistEntry))
  | requestException
  | otherException
deriving DecidableEq

/-- The blacklist endpoint URL requested by fetch_abuseipdb_asns. -/
def BLACKLIST_URL : String :=
  "https://api.abuseipdb.com/api/v2/blacklist?confidenceMinimum=90&limit=100"

/-- fetch_abuseipdb_asns: returns the list of HTTP requests issued (by URL)
together with the returned ASN list. `apiKey` is ABUSEIPDB_API_KEY.
The 200-with-data branch additionally computes country frequency statistics
from the entries; those feed print statements only and are not modeled. -/
def fetch_abuseipdb_asns (apiKey : Option String) (api : FetchOutcome) :
    List String × List Nat :=
  match apiKey with
  | none => ([], (get_known_bad_asns).take MAX_ASNS)
  | some _ =>
    match api with
    | FetchOutcome.response status data =>
      if status == 200 then
        match data with
        | some d =>
          if d.length > 0 then
            let static_asns := get_known_bad_asns
            let selected_asns := static_asns.take MAX_ASNS
            ([BLACKLIST_URL], selected_asns)
          else
            ([BLACKLIST_URL], (get_known_bad_asns).take MAX_ASNS)
        | none =>
          ([BLACKLIST_URL], (get_known_bad_asns).take MAX_ASNS)
      else if status == 429 then
        ([BLACKLIST_URL], (get_known_bad_asns).take MAX_ASNS)
      else if status == 401 then
        ([BLACKLIST_URL], (get_known_bad_asns).take MAX_ASNS)
      else
        ([BLACKLIST_URL], (get_known_bad_asns).take MAX_ASNS)
    | FetchOutcome.requestException =>
      ([BLACKLIST_URL], (get_known_bad_asns).take MAX_ASNS)
    | FetchOutcome.otherException =>
      ([BLACKLIST_URL], (get_known_bad_asns).take MAX_ASNS)

/-- One rule of the rules.yaml document. -/
structure Rule where
  name : String
  action : String
  expression : String
deriving DecidableEq

/-- The rules.yaml document: the `rules` sequence plus the remaining
top-level keys, which update_rules_yaml never touches. -/
structure RuleDoc where
  rules : List Rule
  extra : List (String × String)
deriving DecidableEq

/-- The rule_block literal built by update_rules_yaml for a non-empty ASN
list; the expression is the f-string with the space-joined ASN numbers. -/
def rule_block (asns : List Nat) : Rule :=
  { name := "Block Known Bad ASNs (AbuseIPDB)",
    action := "block",
    expression :=
      "(ip.geoip.asnum in \x7b" ++ String.intercalate " " (asns.map toString) ++ "\x7d)" }

/-- update_rules_yaml on the in-memory document: drop every rule whose name
contains "ASN", then append the new rule_block when `asns` is non-empty
(Python truthiness of the list). File read/write is the identity on the
document content and is not modeled. -/
def update_rules_yaml (asns : List Nat) (data : RuleDoc) : RuleDoc :=
  let rules := data.rules.filter fun rule => !(strContains rule.name "ASN")
  if asns.isEmpty then
    { data with rules := rules }
  else
    { data with rules := rules ++ [rule_block asns] }

/-- Predicate used to state the at-most-one-ASN-rule invariant. -/
def nameHasASN (rule : Rule) : Bool :=
  strContains rule.name "ASN"

/-- One remote ruleset as returned by the Cloudflare list endpoint. -/
structure Ruleset where
  id : String
  name : String
  phase : String
  kind : String
deriving DecidableEq

/-- Outcome of one HTTP request: a response with status code and parsed
body, or a raised exception (transport or otherwise). -/
inductive HttpAttempt (α : Type) where
  | ok (status : Nat) (body : α)
  | exn
deriving DecidableEq

/-- get_zone_rulesets: the body models `response.json().get("result", [])`
(`none` when the `result` key is missing). The GET is not wrapped in any
try/except in the source, so a raised exception propagates (`Except.error`). -/
def get_zone_rulesets (token : Option String)
    (attempt : HttpAttempt (Option (List Ruleset))) : Except Unit (List Ruleset) :=
  match token with
  | none => Except.ok []
  | some _ =>
    match attempt with
    | HttpAttempt.exn => Except.error ()
    | HttpAttempt.ok status body =>
      if status != 200 then Except.ok []
      else Except.ok (body.getD [])

/-- The keyword heuristic from cleanup_existing_rulesets:
some keyword of [terraform, waf, managed] occurs in the lowercased name. -/
def keywordMatch (name : String) : Bool :=
  ["terraform", "waf", "managed"].any fun keyword =>
    listContains keyword.toList (strLowerChars name)

/-- The per-zone body of the cleanup loop: filter to the
http_request_firewall_custom, zone-kind rulesets, then issue one DELETE
(zone id, ruleset id) for each whose name matches the keyword heuristic. -/
def zoneDeletes (zone_id : String) (rulesets : List Ruleset) :
    List (String × String) :=
  let custom_rulesets := rulesets.filter fun rs =>
    rs.phase == "http_request_firewall_custom" && rs.kind == "zone"
  (custom_rulesets.filter fun ruleset => keywordMatch ruleset.name).map
    fun ruleset => (zone_id, ruleset.id)

/-- The zone loop of cleanup_existing_rulesets. Returns the DELETE requests
issued across the zones, and a flag that is true when a listing raised and
the exception escaped (later zones are then not processed, and the DELETEs
issued before the raise are the ones reported). -/
def cleanupZones (token : Option String)
    (resp : String → HttpAttempt (Option (List Ruleset))) :
    List (String × String) → List (String × String) × Bool
  | [] => ([], false)
  | (_, zone_id) :: rest =>
    match get_zone_rulesets token (resp zone_id) with
    | Except.error _ => ([], true)
    | Except.ok rulesets =>
      let r := cleanupZones token resp rest
      (zoneDeletes zone_id rulesets ++ r.1, r.2)

/-- cleanup_existing_rulesets: `resp` gives each zone id the outcome of the
listing GET for that zone. Result: the DELETE requests issued, and whether
an exception propagated out of the function. -/
def cleanup_existing_rulesets (token : Option String)
    (resp : String → HttpAttempt (Option (List Ruleset))) :
    List (String × String) × Bool :=
  match token with
  | none => ([], false)
  | some _ => cleanupZones token resp ZONE_IDS

/-- The deletion criterion as one predicate: custom-firewall phase, zone
kind, and the keyword heuristic on the name. -/
def shouldDeleteRuleset (rs : Ruleset) : Bool :=
  rs.phase == "http_request_firewall_custom" && rs.kind == "zone" &&
    keywordMatch rs.name

/-- The first configured zone id. -/
def ZONE1 : String := "1791cd65881eb3caf7d1a3cb315342a5"

/-- Response environment where the first zone lists `rss` (status 200) and
the second zone lists an empty result (status 200). -/
def respOne (rss : List Ruleset) : String → HttpAttempt (Option (List Ruleset)) :=
  fun zone_id =>
    if zone_id == ZONE1 then HttpAttempt.ok 200 (some rss)
    else HttpAttempt.ok 200 (some [])

/-- Scenario ruleset from the spec: a Terraform-managed custom WAF ruleset. -/
def twafRuleset : Ruleset :=
  { id := "rs-1", name := "Terraform Managed WAF",
    phase := "http_request_firewall_custom", kind := "zone" }

/-- Scenario ruleset from the spec: a custom rule not managed by Terraform. -/
def customRuleset : Ruleset :=
  { id := "rs-2", name := "Custom Rule",
    phase := "http_request_firewall_custom", kind := "zone" }

/-- Every branch of the fetcher returns the static catalog truncated to
MAX_ASNS as its value component. -/
theorem fetch_snd_eq (apiKey : Option String) (api : FetchOutcome) :
    (fetch_abuseipdb_asns apiKey api).2 = get_known_bad_asns.take MAX_ASNS := by
  cases apiKey with
  | none => rfl
  | some k =>
    cases api with
    | response status data =>
      cases data with
      | none =>
        simp only [fetch_abuseipdb_asns]
        split
        · rfl
        · split
          · rfl
          · split <;> rfl
      | some d =>
        simp only [fetch_abuseipdb_asns]
        split
        · split <;> rfl
        · split
          · rfl
          · split <;> rfl
    | requestException => rfl
    | otherException => rfl

/-- The rule filter of update_rules_yaml is idempotent. -/
theorem filter_keep_idem (l : List Rule) :
    ((l.filter fun rule => !(strContains rule.name "ASN")).filter
        fun rule => !(strContains rule.name "ASN"))
      = l.filter fun rule => !(strContains rule.name "ASN") := by
  rw [List.filter_filter]
  apply List.filter_congr
  intro a _
  cases strContains a.name "ASN" <;> rfl

/-- The freshly built rule_block is itself removed by the rule filter. -/
theorem filter_keep_rule_block (asns : List Nat) :
    List.filter (fun rule => !(strContains rule.name "ASN")) [rule_block asns] = [] := rfl

/-- After filtering out the ASN-named rules, no ASN-named rule remains. -/
theorem countP_keep_zero (l : List Rule) :
    (l.filter fun rule => !(strContains rule.name "ASN")).countP nameHasASN = 0 := by
  apply List.countP_eq_zero.mpr
  intro a ha
  have h2 := (List.mem_filter.mp ha).2
  simp only [Bool.not_eq_true'] at h2
  simp [nameHasASN, h2]

/-- Claim C1: cleanup_existing_rulesets issues a DELETE for a listed ruleset
exactly when its phase is the custom firewall phase, its kind is zone, and
its lowercased name contains one of terraform, waf, managed; in the spec
scenario the Terraform Managed WAF entry gets exactly one DELETE for its id
and the Custom Rule entry gets zero. -/
theorem cleanup_deletes_iff_managed_custom (t : String) (rss : List Ruleset) :
    (cleanup_existing_rulesets (some t) (respOne rss)).1
      = (rss.filter shouldDeleteRuleset).map (fun rs => (ZONE1, rs.id)) ∧
    cleanup_existing_rulesets (some t) (respOne [twafRuleset, customRuleset])
      = ([(ZONE1, twafRuleset.id)], false) ∧
    ((cleanup_existing_rulesets (some t) (respOne [twafRuleset, customRuleset])).1.countP
      fun d => d.2 == twafRuleset.id) = 1 ∧
    ((cleanup_existing_rulesets (some t) (respOne [twafRuleset, customRuleset])).1.countP
      fun d => d.2 == customRuleset.id) = 0 := by
  refine ⟨?_, rfl, rfl, rfl⟩
  have h0 : (cleanup_existing_rulesets (some t) (respOne rss)).1
      = zoneDeletes ZONE1 rss ++ [] := rfl
  rw [h0, List.append_nil]
  show ((rss.filter fun rs =>
        rs.phase == "http_request_firewall_custom" && rs.kind == "zone").filter
      fun ruleset => keywordMatch ruleset.name).map (fun ruleset => (ZONE1, ruleset.id))
    = _
  rw [List.filter_filter]
  congr 1
  apply List.filter_congr
  intro a _
  exact Bool.and_comm _ _

/-- Claim C2: whatever the outcome of the intelligence call, and also with
no credential, the fetched ASN list has length at most 50 and is a prefix
of the static catalog. -/
theorem fetch_bounded_prefix_of_catalog (apiKey : Option String) (api : FetchOutcome) :
    (fetch_abuseipdb_asns apiKey api).2.length ≤ 50 ∧
    (fetch_abuseipdb_asns apiKey api).2 <+: get_known_bad_asns := by
  rw [fetch_snd_eq]
  exact ⟨by decide, List.take_prefix _ _⟩

/-- Claim C3: after update_rules_yaml the document holds at most one rule
whose name contains ASN, and with the empty ASN list it holds none. -/
theorem update_at_most_one_asn_rule (asns : List Nat) (doc : RuleDoc) :
    ((update_rules_yaml asns doc).rules.countP nameHasASN) ≤ 1 ∧
    ((update_rules_yaml [] doc).rules.countP nameHasASN) = 0 := by
  constructor
  · cases asns with
    | nil =>
      have e : (update_rules_yaml [] doc).rules
          = doc.rules.filter fun rule => !(strContains rule.name "ASN") := rfl
      rw [e, countP_keep_zero]
      exact Nat.zero_le 1
    | cons a rest =>
      have e : (update_rules_yaml (a :: rest) doc).rules
          = (doc.rules.filter fun rule => !(strContains rule.name "ASN"))
              ++ [rule_block (a :: rest)] := rfl
      rw [e, List.countP_append, countP_keep_zero]
      exact Nat.le_refl 1
  · have e : (update_rules_yaml [] doc).rules
        = doc.rules.filter fun rule => !(strContains rule.name "ASN") := rfl
    rw [e, countP_keep_zero]

/-- Claim C4: for a non-empty ASN list, update_rules_yaml appends exactly
one new rule at the end of the sequence, with the fixed name, action block,
and the set-membership expression over the space-separated ASN numbers. -/
theorem update_nonempty_appends_single_rule (a : Nat) (rest : List Nat) (doc : RuleDoc) :
    (update_rules_yaml (a :: rest) doc).rules
      = (doc.rules.filter fun rule => !(strContains rule.name "ASN")) ++
        [{ name := "Block Known Bad ASNs (AbuseIPDB)",
           action := "block",
           expression := "(ip.geoip.asnum in \x7b"
             ++ String.intercalate " " ((a :: rest).map toString) ++ "\x7d)" }] := rfl

/-- Claim C5: update_rules_yaml with a fixed non-empty ASN list is
idempotent, and with [64512, 64513] the document holds exactly one
ASN-named rule, placed last, whose expression contains both numbers and
whose action is block. -/
theorem update_idempotent_single_asn_rule (a : Nat) (rest : List Nat) (doc : RuleDoc) :
    update_rules_yaml (a :: rest) (update_rules_yaml (a :: rest) doc)
      = update_rules_yaml (a :: rest) doc ∧
    (update_rules_yaml [64512, 64513] doc).rules.countP nameHasASN = 1 ∧
    (update_rules_yaml [64512, 64513] doc).rules.getLast? = some (rule_block [64512, 64513]) ∧
    strContains (rule_block [64512, 64513]).expression "64512" = true ∧
    strContains (rule_block [64512, 64513]).expression "64513" = true ∧
    (rule_block [64512, 64513]).action = "block" := by
  refine ⟨?_, ?_, ?_, by decide, by decide, rfl⟩
  · have e2 : update_rules_yaml (a :: rest) (update_rules_yaml (a :: rest) doc)
        = { doc with rules :=
            (((doc.rules.filter fun rule => !(strContains rule.name "ASN"))
                ++ [rule_block (a :: rest)]).filter
              fun rule => !(strContains rule.name "ASN"))
            ++ [rule_block (a :: rest)] } := rfl
    rw [e2, List.filter_append, filter_keep_idem, filter_keep_rule_block, List.append_nil]
    rfl
  · have e : (update_rules_yaml [64512, 64513] doc).rules
        = (doc.rules.filter fun rule => !(strContains rule.name "ASN"))
            ++ [rule_block [64512, 64513]] := rfl
    rw [e, List.countP_append, countP_keep_zero]
    rfl
  · have e : (update_rules_yaml [64512, 64513] doc).rules
        = (doc.rules.filter fun rule => !(strContains rule.name "ASN"))
            ++ [rule_block [64512, 64513]] := rfl
    rw [e]
    exact List.getLast?_concat _

/-- Claim C6: a 429 response, a 401 response, and a 200 response with an
empty data array all make the fetcher return the static catalog truncated
to MAX_ASNS. -/
theorem fetch_fallback_convergence (k : String) (d e : Option (List BlacklistEntry)) :
    (fetch_abuseipdb_asns (some k) (FetchOutcome.response 429 d)).2
        = get_known_bad_asns.take MAX_ASNS ∧
    (fetch_abuseipdb_asns (some k) (FetchOutcome.response 401 e)).2
        = get_known_bad_asns.take MAX_ASNS ∧
    (fetch_abuseipdb_asns (some k) (FetchOutcome.response 200 (some []))).2
        = get_known_bad_asns.take MAX_ASNS :=
  ⟨fetch_snd_eq _ _, fetch_snd_eq _ _, fetch_snd_eq _ _⟩

/-- Claim C7: with no API key the fetcher issues no HTTP request (the first
component, the list of requests issued, is empty) and returns the static
catalog truncated to MAX_ASNS. -/
theorem fetch_no_key_no_network (api : FetchOutcome) :
    fetch_abuseipdb_asns none api = ([], get_known_bad_asns.take MAX_ASNS) := rfl

/-- Claim C9: with a configured key the returned value is the same for any
two outcomes of the HTTP call, and equals the full static catalog, whose
length is below MAX_ASNS so truncation is the identity. -/
theorem fetch_constant_full_catalog (k : String) (api api2 : FetchOutcome) :
    (fetch_abuseipdb_asns (some k) api).2 = (fetch_abuseipdb_asns (some k) api2).2 ∧
    (fetch_abuseipdb_asns (some k) api).2 = get_known_bad_asns ∧
    get_known_bad_asns.length < MAX_ASNS := by
  refine ⟨?_, ?_, by decide⟩
  · rw [fetch_snd_eq, fetch_snd_eq]
  · rw [fetch_snd_eq]
    rfl

/-- Claim C10: update_rules_yaml keeps every top-level key other than rules
unchanged, keeps the rules without ASN in the name unchanged and in order,
and puts the one new rule, when any, strictly after all of them. -/
theorem update_frame_preserves_rest (asns : List Nat) (doc : RuleDoc) :
    (update_rules_yaml asns doc).extra = doc.extra ∧
    ((update_rules_yaml asns doc).rules.filter fun rule => !(strContains rule.name "ASN"))
      = (doc.rules.filter fun rule => !(strContains rule.name "ASN")) ∧
    (update_rules_yaml asns doc).rules
      = (doc.rules.filter fun rule => !(strContains rule.name "ASN"))
          ++ (if asns.isEmpty then [] else [rule_block asns]) := by
  cases asns with
  | nil =>
    refine ⟨rfl, filter_keep_idem _, ?_⟩
    exact (List.append_nil _).symm
  | cons a rest =>
    refine ⟨rfl, ?_, rfl⟩
    have e : (update_rules_yaml (a :: rest) doc).rules
        = (doc.rules.filter fun rule => !(strContains rule.name "ASN"))
            ++ [rule_block (a :: rest)] := rfl
    rw [e, List.filter_append, filter_keep_idem, filter_keep_rule_block, List.append_nil]

/-- Claim C8, counterexample: with a token configured and the listing GET
raising a transport error for every zone, the exception escapes
cleanup_existing_rulesets (second component true), refuting that no
exception ever propagates out of cleanup. -/
theorem cleanup_transport_failure_propagates :
    cleanup_existing_rulesets (some "token") (fun _ => HttpAttempt.exn) = ([], true) := rfl

/-- Claim C8 as amended: a non-200 listing response makes the zone count as
having zero rulesets and nothing propagates, while a transport failure
during listing is uncaught and escapes cleanup. -/
theorem cleanup_listing_non200_zero_rulesets (t : String) (status : Nat)
    (body : Option (List Ruleset)) (h : status ≠ 200) :
    get_zone_rulesets (some t) (HttpAttempt.ok status body) = Except.ok [] ∧
    cleanup_existing_rulesets (some t) (fun _ => HttpAttempt.ok status body) = ([], false) ∧
    (cleanup_existing_rulesets (some t) (fun _ => HttpAttempt.exn)).2 = true := by
  have hb : (status != 200) = true := bne_iff_ne.mpr h
  have hg : get_zone_rulesets (some t) (HttpAttempt.ok status body) = Except.ok [] := by
    show (if (status != 200) = true then (Except.ok [] : Except Unit (List Ruleset))
        else Except.ok (body.getD [])) = Except.ok []
    rw [if_pos hb]
  refine ⟨hg, ?_, rfl⟩
  show cleanupZones (some t) (fun _ => HttpAttempt.ok status body) ZONE_IDS = ([], false)
  simp only [ZONE_IDS, cleanupZones, hg, zoneDeletes, List.filter_nil, List.map_nil,
    List.nil_append, List.append_nil]

/-- Witness for the amended claim C8 at status 500. -/
theorem cleanup_listing_non200_zero_rulesets_witness :
    get_zone_rulesets (some "token2") (HttpAttempt.ok 500 none) = Except.ok [] ∧
    cleanup_existing_rulesets (some "token2") (fun _ => HttpAttempt.ok 500 none) = ([], false) ∧
    (cleanup_existing_rulesets (some "token2") (fun _ => HttpAttempt.exn)).2 = true :=
  cleanup_listing_non200_zero_rulesets "token2" 500 none (by decide)
